import Mathlib

/-
Verification development for the admin/VPN Telegram bot in `src/main.py`.

The bot's security-monitoring checks operate line-by-line on log files; a log
line is modelled as a `List Char`, and the Python string operations the source
uses (`in`, `split`, `strip`, `int`, `datetime.strptime`, dict insertion,
`sorted(..., reverse=True)`) are reimplemented structurally below so that
concrete runs reduce inside the kernel.
-/

namespace TgBotAdmVpn

/-- Bool test that `pat` is a prefix of `l` (helper for substring containment). -/
def isPfx : List Char → List Char → Bool
  | [], _ => true
  | _ :: _, [] => false
  | a :: as, b :: bs => a = b && isPfx as bs

/-- Python's `pat in line` substring containment test. -/
def pyIn (pat : List Char) : List Char → Bool
  | [] => isPfx pat []
  | c :: rest => isPfx pat (c :: rest) || pyIn pat rest

/-- Helper for `splitChar`: accumulates the current chunk (reversed). -/
def splitByAux (p : Char → Bool) : List Char → List Char → List (List Char)
  | [], acc => [acc.reverse]
  | c :: rest, acc =>
    if p c then acc.reverse :: splitByAux p rest []
    else splitByAux p rest (c :: acc)

/-- Python's `s.split(sep)` for a one-character separator (keeps empty chunks). -/
def splitChar (sep : Char) (l : List Char) : List (List Char) :=
  splitByAux (fun c => c = sep) l []

/-- Python's `s.split()` with no argument: split on whitespace runs, dropping
empty tokens. -/
def pySplitL (l : List Char) : List (List Char) :=
  (splitByAux (fun c => c.isWhitespace) l []).filter (fun t => !t.isEmpty)

/-- Python's `s.strip()`. -/
def trimL (l : List Char) : List Char :=
  ((l.dropWhile Char.isWhitespace).reverse.dropWhile Char.isWhitespace).reverse

/-- Parse of a run of ASCII decimal digits; `none` on an empty or non-digit
token.  This is the digit-field parse shared by `int` and `strptime`. -/
def toNatL (l : List Char) : Option Nat :=
  if !l.isEmpty && l.all Char.isDigit then
    some (l.foldl (fun n c => n * 10 + (c.toNat - 48)) 0)
  else none

/-- Python's `int(s)` on an already-stripped token: an optional sign followed
by decimal digits; parses that raise `ValueError` are `none`. -/
def toIntPy (l : List Char) : Option Int :=
  match l with
  | '-' :: rest => (toNatL rest).map (fun n => -(n : Int))
  | '+' :: rest => (toNatL rest).map (fun n => (n : Int))
  | _ => (toNatL l).map (fun n => (n : Int))

/-- A Python `datetime` value as produced by
`datetime.strptime(..., '%Y-%m-%d %H:%M:%S')`. -/
structure PyDateTime where
  year : Nat
  month : Nat
  day : Nat
  hour : Nat
  minute : Nat
  second : Nat
deriving DecidableEq, Repr

/-- Chronological comparison of two datetimes (lexicographic on the fields,
which is the chronological order for in-range values). -/
def dtLe (a b : PyDateTime) : Bool :=
  if a.year ≠ b.year then decide (a.year < b.year)
  else if a.month ≠ b.month then decide (a.month < b.month)
  else if a.day ≠ b.day then decide (a.day < b.day)
  else if a.hour ≠ b.hour then decide (a.hour < b.hour)
  else if a.minute ≠ b.minute then decide (a.minute < b.minute)
  else decide (a.second ≤ b.second)

/-- Gregorian leap-year test, as validated by Python's `datetime`. -/
def isLeapYear (y : Nat) : Bool :=
  (y % 4 == 0) && (y % 100 != 0 || y % 400 == 0)

/-- Number of days in a month, as validated by Python's `datetime`. -/
def daysInMonth (y m : Nat) : Nat :=
  if m = 2 then (if isLeapYear y then 29 else 28)
  else if m = 4 ∨ m = 6 ∨ m = 9 ∨ m = 11 then 30
  else 31

/-- The range validation `strptime` performs when building a `datetime`
(out-of-range fields raise `ValueError`, caught by the scan loop). -/
def mkDateTime (y mo d h mi s : Nat) : Option PyDateTime :=
  if y ≤ 9999 ∧ 1 ≤ mo ∧ mo ≤ 12 ∧ 1 ≤ d ∧ d ≤ daysInMonth y mo
     ∧ h ≤ 23 ∧ mi ≤ 59 ∧ s ≤ 59
  then some ⟨y, mo, d, h, mi, s⟩ else none

/-- Embedding of `datetime.strptime(f"{parts[0]} {parts[1]}",
'%Y-%m-%d %H:%M:%S')` from `check_fail2ban_alerts`: the first token is the
date `YYYY-MM-DD`, the second the time `HH:MM:SS`; a failed parse raises and
the line is skipped. -/
def parseLogDate (dateTok timeTok : List Char) : Option PyDateTime :=
  match splitChar '-' dateTok, splitChar ':' timeTok with
  | [ys, ms, ds], [hs, mis, ss] =>
    match toNatL ys, toNatL ms, toNatL ds, toNatL hs, toNatL mis, toNatL ss with
    | some y, some mo, some d, some h, some mi, some s => mkDateTime y mo d h mi s
    | _, _, _, _, _, _ => none
  | _, _ => none

/-- The `ips[ip] += 1` update on a Python dict, which preserves insertion
order; the dict is modelled as an association list in insertion order. -/
def bump : List (List Char × Nat) → List Char → List (List Char × Nat)
  | [], ip => [(ip, 1)]
  | (k, v) :: rest, ip =>
    if k = ip then (k, v + 1) :: rest else (k, v) :: bump rest ip

/-- The ordering used by `sorted(ips.items(), key=lambda x: x[1],
reverse=True)`: entry `a` may precede entry `b` when `a`'s count is at least
`b`'s. -/
def countGe (a b : List Char × Nat) : Prop := b.2 ≤ a.2

instance : DecidableRel countGe :=
  fun a b => inferInstanceAs (Decidable (b.2 ≤ a.2))

instance : IsTotal (List Char × Nat) countGe :=
  ⟨fun a b => le_total b.2 a.2⟩

instance : IsTrans (List Char × Nat) countGe :=
  ⟨fun _ _ _ h1 h2 => le_trans h2 h1⟩

/-- Python's `sorted(ips.items(), key=lambda x: x[1], reverse=True)`: a stable
sort by count descending — entries with equal counts keep their insertion
order. -/
def sortByCountDesc (l : List (List Char × Nat)) : List (List Char × Nat) :=
  List.insertionSort countGe l

/-- Python's `l[-n:]`. -/
def lastN {α : Type} (n : Nat) (l : List α) : List α :=
  l.drop (l.length - n)

/-- Line loop of `ServerManager.check_fail2ban_alerts`: a line is kept iff it
contains a ban/unban marker, its first two whitespace tokens parse as a
timestamp, and that timestamp is `>= five_min_ago`. -/
def fail2banScan (lines : List (List Char)) (fiveMinAgo : PyDateTime) :
    List (List Char) :=
  lines.foldl (fun acc line =>
    if pyIn ("Ban".toList) line || pyIn ("Unban".toList) line then
      match pySplitL line with
      | p0 :: p1 :: _ =>
        match parseLogDate p0 p1 with
        | some d => if dtLe fiveMinAgo d then acc ++ [trimL line] else acc
        | none => acc
      | _ => acc
    else acc) []

/-- Data of the fail2ban alert message: observed count, threshold, and the
last 10 events shown. -/
structure Fail2banAlert where
  count : Nat
  threshold : Int
  recentEvents : List (List Char)
deriving DecidableEq

/-- `ServerManager.check_fail2ban_alerts`, parameterized by the file's lines,
the cutoff `five_min_ago = now - timedelta(minutes=5)`, and the configured
`ALERT_THRESHOLD`. -/
def check_fail2ban_alerts (lines : List (List Char)) (fiveMinAgo : PyDateTime)
    (threshold : Int) : Option Fail2banAlert :=
  if ((fail2banScan lines fiveMinAgo).length : Int) > threshold then
    some ⟨(fail2banScan lines fiveMinAgo).length, threshold,
          lastN 10 (fail2banScan lines fiveMinAgo)⟩
  else none

/-- The failed-authentication marker of `check_ssh_failed_login`:
`'Failed password' in line or 'Invalid user' in line`. -/
def sshMarker (line : List Char) : Bool :=
  pyIn ("Failed password".toList) line || pyIn ("Invalid user".toList) line

/-- The IP-extraction loop of `check_ssh_failed_login`: the token after the
first `from` token that has a successor; `none` when no such token exists. -/
def findFromIp : List (List Char) → Option (List Char)
  | [] => none
  | p :: rest => if p = ("from".toList) then rest.head? else findFromIp rest

/-- One iteration of the line loop of `check_ssh_failed_login`: the line is
appended to `failed_attempts` and its IP counted only inside the
`part == 'from'` branch. -/
def sshStep (acc : List (List Char) × List (List Char × Nat)) (line : List Char) :
    List (List Char) × List (List Char × Nat) :=
  if sshMarker line then
    match findFromIp (pySplitL line) with
    | some ip => (acc.1 ++ [trimL line], bump acc.2 ip)
    | none => acc
  else acc

/-- Line loop of `check_ssh_failed_login`: returns `(failed_attempts, ips)`. -/
def sshScan (lines : List (List Char)) :
    List (List Char) × List (List Char × Nat) :=
  lines.foldl sshStep ([], [])

/-- Data of the SSH alert message: observed count, threshold, and the top-5
source IPs. -/
structure SshAlert where
  count : Nat
  threshold : Int
  topIps : List (List Char × Nat)
deriving DecidableEq

/-- `ServerManager.check_ssh_failed_login`, parameterized by the file's lines
and the configured `SSH_FAILED_THRESHOLD`.  The body never consults
`five_min_ago`, so the embedding takes no time parameter. -/
def check_ssh_failed_login (lines : List (List Char)) (threshold : Int) :
    Option SshAlert :=
  if (((sshScan lines).1.length : Int) > threshold) then
    some ⟨(sshScan lines).1.length, threshold,
          (sortByCountDesc (sshScan lines).2).take 5⟩
  else none

/-- The line test of `check_port_scanning`:
`'UFW' in line or 'kernel' in line and 'DROP' in line` — Python's `and` binds
tighter than `or`, so this is `UFW ∨ (kernel ∧ DROP)`. -/
def portScanLine (line : List Char) : Bool :=
  pyIn ("UFW".toList) line || (pyIn ("kernel".toList) line && pyIn ("DROP".toList) line)

/-- Suffix of `l` after the first occurrence of `pat`; `none` when `pat` does
not occur (helper for the `SRC=` split). -/
def afterFirst (pat : List Char) : List Char → Option (List Char)
  | [] => none
  | c :: rest =>
    if isPfx pat (c :: rest) then some (List.drop pat.length (c :: rest))
    else afterFirst pat rest

/-- Longest prefix of `l` before the next occurrence of `pat` (helper for the
`SRC=` split). -/
def takeUntil (pat : List Char) : List Char → List Char
  | [] => []
  | c :: rest =>
    if isPfx pat (c :: rest) then [] else c :: takeUntil pat rest

/-- The `SRC=` extraction of `check_port_scanning`:
`line.split('SRC=')[1].split()[0]`, where the segment `[1]` runs from the
first `SRC=` to the next one; the `IndexError` raised when no token follows
is caught, yielding no IP. -/
def srcIp (line : List Char) : Option (List Char) :=
  match afterFirst ("SRC=".toList) line with
  | none => none
  | some seg => (pySplitL (takeUntil ("SRC=".toList) seg)).head?

/-- One iteration of the line loop of `check_port_scanning`: the line is
appended before IP extraction, so it is counted even when no `SRC=` IP can be
extracted. -/
def portStep (acc : List (List Char) × List (List Char × Nat)) (line : List Char) :
    List (List Char) × List (List Char × Nat) :=
  if portScanLine line then
    match srcIp line with
    | some ip => (acc.1 ++ [trimL line], bump acc.2 ip)
    | none => (acc.1 ++ [trimL line], acc.2)
  else acc

/-- Line loop of `check_port_scanning`: returns `(port_events, ips)`. -/
def portScan (lines : List (List Char)) :
    List (List Char) × List (List Char × Nat) :=
  lines.foldl portStep ([], [])

/-- Data of the port-scan alert message: observed count, threshold, and the
top-5 source IPs. -/
structure PortScanAlert where
  count : Nat
  threshold : Int
  topIps : List (List Char × Nat)
deriving DecidableEq

/-- `ServerManager.check_port_scanning`, parameterized by the file's lines and
the configured `PORT_SCAN_THRESHOLD`.  The body never consults
`five_min_ago`, so the embedding takes no time parameter. -/
def check_port_scanning (lines : List (List Char)) (threshold : Int) :
    Option PortScanAlert :=
  if (((portScan lines).1.length : Int) > threshold) then
    some ⟨(portScan lines).1.length, threshold,
          (sortByCountDesc (portScan lines).2).take 5⟩
  else none

/-- Outcome of one `subprocess.run([...], capture_output=True, timeout=...)`
invocation: either the process returned (any exit code, with captured
output), or the bounded timeout elapsed and `TimeoutExpired` was raised. -/
inductive RunOutcome where
  | completed (returncode : Int) (stdoutText stderrText : List Char)
  | timedOut (excMsg : List Char)
deriving DecidableEq

/-- Observable result of `ServerManager.restart_docker_compose`: whether the
5-second settle wait (`await asyncio.sleep(5)`) happened, whether the start
invocation was performed, the returned success flag, and the returned
message. -/
structure RestartTrace where
  settled : Bool
  startRan : Bool
  success : Bool
  message : List Char
deriving DecidableEq

/-- Prefix of the message built in the generic `except Exception` handler. -/
def errPrefix : List Char := ("❌ Ошибка: ".toList)

/-- Success message returned when both exit codes are 0. -/
def restartOkMsg : List Char := ("✅ Docker-compose успешно перезагружен".toList)

/-- Failure-message prefix before the captured stop stderr. -/
def failPre : List Char := ("❌ Ошибка перезагрузки\nStop: ".toList)

/-- Failure-message separator before the captured start stderr. -/
def failMid : List Char := ("\nStart: ".toList)

/-- `ServerManager.restart_docker_compose`, parameterized by the outcomes the
two external invocations would produce.  A `TimeoutExpired` from the stop
call propagates to the outer `except Exception`, so the settle wait and the
start invocation are skipped in that case. -/
def restart_docker_compose (stopOutcome startOutcome : RunOutcome) : RestartTrace :=
  match stopOutcome with
  | .timedOut m => ⟨false, false, false, errPrefix ++ m⟩
  | .completed rc1 _ e1 =>
    match startOutcome with
    | .timedOut m => ⟨true, true, false, errPrefix ++ m⟩
    | .completed rc2 _ e2 =>
      if rc1 = 0 ∧ rc2 = 0 then ⟨true, true, true, restartOkMsg⟩
      else ⟨true, true, false, failPre ++ e1 ++ failMid ++ e2⟩

/-- The action `button_callback` takes for a given `query.data` value.
`rejectAlreadyInProgress` is the response the spec requires for a confirm
received while a restart is in flight; it is included in the action type to
state that the handler never produces it (the handler keeps no in-flight
state at all). -/
inductive BotAction where
  | denyAccess
  | showStatus
  | confirmPrompt
  | runRestart
  | showMainMenu
  | showHelp
  | showSecurity
  | rejectAlreadyInProgress
  | unknownNoOp
deriving DecidableEq

/-- Dispatch of `button_callback` on the authorization check and
`query.data`.  The `confirm_restart` branch unconditionally awaits
`restart_docker_compose`; there is no in-flight flag or queue. -/
def button_callback (isAdminUser : Bool) (data : List Char) : BotAction :=
  if !isAdminUser then .denyAccess
  else if data = ("status".toList) then .showStatus
  else if data = ("restart_docker".toList) then .confirmPrompt
  else if data = ("confirm_restart".toList) then .runRestart
  else if data = ("main_menu".toList) then .showMainMenu
  else if data = ("help".toList) then .showHelp
  else if data = ("security".toList) then .showSecurity
  else .unknownNoOp

/-- The `check_counters` dict of `monitor_fail2ban`. -/
structure CheckCounters where
  fail2ban : Nat
  ssh : Nat
  port_scan : Nat
deriving DecidableEq, Repr

/-- The counter update at the end of each 60-second tick of
`monitor_fail2ban`: `(c + 1) % 1` for fail2ban, `(c + 1) % 2` for the SSH and
port-scan checks. -/
def tickStep (c : CheckCounters) : CheckCounters :=
  ⟨(c.fail2ban + 1) % 1, (c.ssh + 1) % 2, (c.port_scan + 1) % 2⟩

/-- Counter state at the start of tick `n` of `monitor_fail2ban` (all
counters start at 0; a check runs on a tick iff its counter is 0 there). -/
def countersAt : Nat → CheckCounters
  | 0 => ⟨0, 0, 0⟩
  | n + 1 => tickStep (countersAt n)

/-- The `ADMIN_IDS` parse: split the configuration string on commas, strip
each entry, keep those `int()` accepts (a `ValueError` skips the entry), then
remove a parsed 0.  The Python set is modelled as the parsed list; only
membership and emptiness are consumed. -/
def parseAdminIds (s : List Char) : List Int :=
  ((splitChar ',' s).filterMap (fun part => toIntPy (trimL part))).filter
    (fun i => i != 0)

/-- The allow-list for a given environment: `os.getenv('ADMIN_IDS', '0')`
defaults to the string `"0"` when the variable is absent. -/
def ADMIN_IDS_of (env : Option (List Char)) : List Int :=
  parseAdminIds (env.getD ['0'])

/-- `is_admin`: membership of the user id in the parsed allow-list. -/
def is_admin (env : Option (List Char)) (user_id : Int) : Bool :=
  decide (user_id ∈ ADMIN_IDS_of env)

/-- Python truthiness of an optional string: `not BOT_TOKEN` is true when the
variable is unset or the empty string. -/
def pyTruthyStr : Option (List Char) → Bool
  | none => false
  | some s => !s.isEmpty

/-- What `main()` does before building the application: exit or start. -/
inductive StartupResult where
  | exited (code : Nat)
  | started
deriving DecidableEq

/-- The startup gate of `main()`: `sys.exit(1)` when `BOT_TOKEN` is falsy,
then `sys.exit(1)` when the parsed `ADMIN_IDS` set is empty, otherwise the
bot and the monitoring loop are started. -/
def main_startup (botToken adminEnv : Option (List Char)) : StartupResult :=
  if !pyTruthyStr botToken then .exited 1
  else if (ADMIN_IDS_of adminEnv).isEmpty then .exited 1
  else .started

/-- Strict lexicographic order on group keys (helper for the spec's
tie-breaking order). -/
def lexLtKey : List Char → List Char → Bool
  | [], [] => false
  | [], _ :: _ => true
  | _ :: _, [] => false
  | a :: as, b :: bs => if a = b then lexLtKey as bs else decide (a < b)

/-- Modelled from the spec: the ordering the spec prescribes for
`top_entries` — count descending with ties broken by group key ascending.
Stated from the spec's words only, to be compared with `sortByCountDesc`
(which embeds the code's `sorted(..., key=lambda x: x[1], reverse=True)`). -/
def specTopOrder (a b : List Char × Nat) : Bool :=
  (decide (b.2 < a.2)) || ((a.2 == b.2) && (lexLtKey a.1 b.1 || a.1 == b.1))

/-- Sorting by the spec's prescribed `top_entries` order. -/
def sortSpecDesc (l : List (List Char × Nat)) : List (List Char × Nat) :=
  List.insertionSort (fun a b => specTopOrder a b = true) l

/-- An auth-log line with the failed-password marker and a `from`-token IP
whose timestamp (2020) is far older than any 5-minute window. -/
def oldSshLine : List Char :=
  ("2020-01-01 00:00:05 host sshd[77]: Failed password for root from 1.2.3.4 port 22 ssh2".toList)

/-- A firewall log line flagged `DROP` whose timestamp (2020) is far older
than any 5-minute window. -/
def oldUfwLine : List Char :=
  ("2020-01-01 00:00:05 host kernel: [UFW BLOCK] IN=eth0 SRC=5.6.7.8 PROTO=TCP DROP".toList)

/-- A fail2ban ban line whose timestamp (2020) is far older than any
5-minute window. -/
def oldBanLine : List Char :=
  ("2020-01-01 00:00:05 fail2ban.actions: NOTICE [sshd] Ban 1.2.3.4".toList)

/-- A `now - 5 minutes` cutoff in 2026, long after the old lines above. -/
def cutoff2026 : PyDateTime := ⟨2026, 2, 3, 12, 25, 45⟩

/-- A line with the failed-authentication marker but no `from` token. -/
def noFromLine : List Char :=
  ("Feb  3 12:29:01 host sshd[5]: Failed password for root".toList)

/-- A UFW line that is not a dropped packet (no `DROP` marker). -/
def ufwAllowLine : List Char :=
  ("Feb  3 12:29:02 host kernel: [UFW ALLOW] IN=eth0 SRC=10.0.0.9 DPT=80".toList)

/-- Failed-login line from `10.0.0.2`, appearing first in the log. -/
def tieLineA : List Char :=
  ("Feb  3 12:29:03 host sshd[6]: Failed password for root from 10.0.0.2 port 22".toList)

/-- Failed-login line from `10.0.0.1`, appearing second in the log. -/
def tieLineB : List Char :=
  ("Feb  3 12:29:04 host sshd[6]: Failed password for root from 10.0.0.1 port 22".toList)

/-- A run outcome that reported success: the process returned with exit
code 0 (a timeout never reports success). -/
def runOk : RunOutcome → Bool
  | .completed rc _ _ => rc == 0
  | .timedOut _ => false

/-- C1: the sliding-window filter exists only in the fail2ban check.  The SSH
and port-scan checks count a matching line regardless of its timestamp (their
scans take no time parameter at all: the computed `five_min_ago` is dead
code), so a line dated 2020 is counted and can fire an alert; the fail2ban
check does filter by the cutoff. -/
theorem C1_window_ignored_by_ssh_and_port_checks :
    sshScan [oldSshLine] = ([oldSshLine], [(("1.2.3.4".toList), 1)])
  ∧ (check_ssh_failed_login [oldSshLine] 0).isSome = true
  ∧ portScan [oldUfwLine] = ([oldUfwLine], [(("5.6.7.8".toList), 1)])
  ∧ (check_port_scanning [oldUfwLine] 0).isSome = true
  ∧ fail2banScan [oldBanLine] cutoff2026 = []
  ∧ fail2banScan [oldBanLine] ⟨2019, 12, 31, 23, 59, 0⟩ = [oldBanLine] := by
  refine ⟨by decide, by decide, by decide, by decide, by decide, by decide⟩

/-- C2 counterexample: when the stop invocation times out, the raised
`TimeoutExpired` lands in the outer exception handler, so neither the
5-second settle wait nor the start invocation is performed. -/
theorem C2_stop_timeout_skips_start :
    (restart_docker_compose
        (RunOutcome.timedOut ("Command timed out after 30 seconds".toList))
        (RunOutcome.completed 0 [] [])).startRan = false
  ∧ (restart_docker_compose
        (RunOutcome.timedOut ("Command timed out after 30 seconds".toList))
        (RunOutcome.completed 0 [] [])).settled = false := ⟨rfl, rfl⟩

/-- C2 (amended): when the stop invocation returns (success or non-zero
exit), the settle wait and the start invocation are always performed, the
outcome is a success iff both invocations reported success, and a failure
with both invocations returning carries both captured stderr outputs in the
result message. -/
theorem C2_restart_after_stop_returns (rc1 : Int) (o1 e1 : List Char)
    (startOutcome : RunOutcome) :
    ((restart_docker_compose (RunOutcome.completed rc1 o1 e1) startOutcome).settled = true
      ∧ (restart_docker_compose (RunOutcome.completed rc1 o1 e1) startOutcome).startRan = true)
  ∧ (restart_docker_compose (RunOutcome.completed rc1 o1 e1) startOutcome).success
      = ((rc1 == 0) && runOk startOutcome)
  ∧ (∀ rc2 o2 e2, startOutcome = RunOutcome.completed rc2 o2 e2 →
      ¬(rc1 = 0 ∧ rc2 = 0) →
      (restart_docker_compose (RunOutcome.completed rc1 o1 e1) startOutcome).message
        = failPre ++ e1 ++ failMid ++ e2) := by
  cases startOutcome with
  | timedOut m =>
    refine ⟨⟨rfl, rfl⟩, ?_, ?_⟩
    · simp [restart_docker_compose, runOk]
    · intro rc2 o2 e2 heq
      exact absurd heq (by simp)
  | completed rc2 o2 e2 =>
    by_cases h : rc1 = 0 ∧ rc2 = 0
    · refine ⟨⟨?_, ?_⟩, ?_, ?_⟩
      · simp [restart_docker_compose, h]
      · simp [restart_docker_compose, h]
      · simp [restart_docker_compose, h, runOk, h.1, h.2]
      · intro rc2' o2' e2' heq hne
        injection heq with h1 h2 h3
        exact absurd ⟨h.1, h1 ▸ h.2⟩ hne
    · refine ⟨⟨?_, ?_⟩, ?_, ?_⟩
      · simp [restart_docker_compose, h]
      · simp [restart_docker_compose, h]
      · simp [restart_docker_compose, h, runOk]
        intro h1
        exact fun h2 => h ⟨h1, h2⟩
      · intro rc2' o2' e2' heq hne
        injection heq with h1 h2 h3
        subst h1; subst h2; subst h3
        simp [restart_docker_compose, h]

/-- C3 counterexample: an authorized `confirm_restart` is never answered with
an already-in-progress rejection — the handler has no such branch. -/
theorem C3_confirm_restart_not_rejected :
    button_callback true ("confirm_restart".toList) ≠ BotAction.rejectAlreadyInProgress := by
  decide

/-- C3 (amended): the handler keeps no in-flight state: every authorized
`confirm_restart` immediately runs the stop/settle/start sequence, and no
input whatsoever produces an "already in progress" rejection. -/
theorem C3_no_inflight_guard :
    button_callback true ("confirm_restart".toList) = BotAction.runRestart
  ∧ (∀ (isAdminUser : Bool) (data : List Char),
      button_callback isAdminUser data ≠ BotAction.rejectAlreadyInProgress) := by
  refine ⟨by decide, ?_⟩
  intro isAdminUser data
  unfold button_callback
  split_ifs <;> simp

/-- C4: each of the three checks produces an alert iff its event count is
strictly greater than its configured threshold; a count equal to the
threshold produces none (shown concretely: 1 matching line with threshold 1
gives no alert, 2 matching lines do). -/
theorem C4_alert_iff_strictly_above_threshold (lines : List (List Char))
    (cutoff : PyDateTime) (t : Int) :
    ((check_fail2ban_alerts lines cutoff t).isSome
      ↔ ((fail2banScan lines cutoff).length : Int) > t)
  ∧ ((check_ssh_failed_login lines t).isSome
      ↔ (((sshScan lines).1.length : Int) > t))
  ∧ ((check_port_scanning lines t).isSome
      ↔ (((portScan lines).1.length : Int) > t))
  ∧ check_ssh_failed_login [tieLineA] 1 = none
  ∧ (check_ssh_failed_login [tieLineA, tieLineB] 1).isSome = true := by
  refine ⟨?_, ?_, ?_, by decide, by decide⟩
  · unfold check_fail2ban_alerts; split <;> simp_all
  · unfold check_ssh_failed_login; split <;> simp_all
  · unfold check_port_scanning; split <;> simp_all

/-- C5 counterexample: a line carrying the failed-authentication marker but
no `from` token is not counted at all — it reaches neither the aggregate
total nor the per-IP breakdown, and alone it cannot fire even a threshold-0
alert. -/
theorem C5_marker_line_without_ip_uncounted :
    sshMarker noFromLine = true
  ∧ findFromIp (pySplitL noFromLine) = none
  ∧ sshScan [noFromLine] = ([], [])
  ∧ check_ssh_failed_login [noFromLine] 0 = none := by
  refine ⟨by decide, by decide, by decide, by decide⟩

/-- C7: the line test of the port-scan check is `UFW ∨ (kernel ∧ DROP)`, so
a UFW line without any drop marker is extracted and counted as a dropped
packet, and alone fires a threshold-0 alert. -/
theorem C7_ufw_counted_without_drop_marker :
    portScanLine ufwAllowLine = true
  ∧ pyIn ("DROP".toList) ufwAllowLine = false
  ∧ portScan [ufwAllowLine] = ([ufwAllowLine], [(("10.0.0.9".toList), 1)])
  ∧ (check_port_scanning [ufwAllowLine] 0).isSome = true := by
  refine ⟨by decide, by decide, by decide, by decide⟩

/-- Closed form of the scheduler counters: fail2ban's counter is always 0,
the SSH and port-scan counters hold the tick parity. -/
theorem countersAt_eq (n : Nat) : countersAt n = ⟨0, n % 2, n % 2⟩ := by
  induction n with
  | zero => rfl
  | succ n ih =>
    show tickStep (countersAt n) = _
    rw [ih]
    show CheckCounters.mk ((0 + 1) % 1) ((n % 2 + 1) % 2) ((n % 2 + 1) % 2) = _
    have h2 : (n % 2 + 1) % 2 = (n + 1) % 2 := by omega
    rw [h2]

/-- C8: on the fixed 60-second tick sequence a check runs on tick `n` iff its
counter is 0 there: the fail2ban check runs on every tick, and the SSH and
port-scan checks run exactly on the even ticks — both on tick 0 and then on
every second tick. -/
theorem C8_tick_cadence (n : Nat) :
    ((countersAt n).fail2ban = 0)
  ∧ ((countersAt n).ssh = 0 ↔ n % 2 = 0)
  ∧ ((countersAt n).port_scan = 0 ↔ n % 2 = 0) := by
  rw [countersAt_eq]
  exact ⟨rfl, Iff.rfl, Iff.rfl⟩

/-- C9: startup reaches the bot and the monitoring loop iff the token is a
non-empty string and the parsed allow-list is non-empty; otherwise the
process exits, and the exit status is never 0. -/
theorem C9_startup_gate (botToken adminEnv : Option (List Char)) :
    (main_startup botToken adminEnv = StartupResult.started
      ↔ (pyTruthyStr botToken = true ∧ ADMIN_IDS_of adminEnv ≠ []))
  ∧ main_startup botToken adminEnv ≠ StartupResult.exited 0 := by
  unfold main_startup
  split_ifs with h1 h2 <;> simp_all [List.isEmpty_iff]

/-- C10: the identity 0 is never in the allow-list: for every configuration
string `is_admin 0` is false and 0 is not among the parsed ids; the default
string `"0"` (absent variable) parses to the empty allow-list; entries that
`int()` rejects are skipped. -/
theorem C10_zero_never_admin :
    (∀ env : Option (List Char), is_admin env 0 = false)
  ∧ (∀ s : List Char, (0 : Int) ∉ parseAdminIds s)
  ∧ ADMIN_IDS_of none = []
  ∧ parseAdminIds ("12,abc,7".toList) = [12, 7] := by
  have hmem : ∀ s : List Char, (0 : Int) ∉ parseAdminIds s := by
    intro s hm
    have h2 := (List.mem_filter.mp hm).2
    simp at h2
  exact ⟨fun env => decide_eq_false (hmem _), hmem, by decide, by decide⟩

/-- Incrementing an IP's count raises the sum of all counts by exactly 1. -/
theorem bump_sum (ips : List (List Char × Nat)) (ip : List Char) :
    ((bump ips ip).map (fun e => e.2)).sum = ((ips.map (fun e => e.2)).sum) + 1 := by
  induction ips with
  | nil => simp [bump]
  | cons y ys ih =>
    obtain ⟨k, v⟩ := y
    by_cases h : k = ip
    · simp [bump, h]
      omega
    · simp [bump, h, ih]
      omega

/-- Invariant of the SSH line loop: the length of `failed_attempts` always
equals the sum of the per-IP counts (a line is appended exactly when one IP
count is incremented). -/
theorem sshScan_fold_len (lines : List (List Char))
    (acc : List (List Char) × List (List Char × Nat))
    (h : acc.1.length = ((acc.2.map (fun e => e.2)).sum)) :
    (lines.foldl sshStep acc).1.length
      = (((lines.foldl sshStep acc).2.map (fun e => e.2)).sum) := by
  induction lines generalizing acc with
  | nil => exact h
  | cons l ls ih =>
    simp only [List.foldl_cons]
    apply ih
    unfold sshStep
    by_cases hm : sshMarker l
    · cases hf : findFromIp (pySplitL l) with
      | none => simp [hm, hf, h]
      | some ip => simp [hm, hf, bump_sum, h]
    · simp [hm, h]

/-- C5 (amended): for the SSHAuth source a matching line is counted iff an
origin IP can be extracted from it — the aggregate total always equals the
sum of the per-IP counts, so a line without an extractable IP contributes to
neither. -/
theorem C5_total_equals_ip_sum :
    (∀ lines : List (List Char),
        (sshScan lines).1.length = (((sshScan lines).2.map (fun e => e.2)).sum))
  ∧ (∀ line : List Char,
        (sshScan [line]).1.length
          = if sshMarker line && (findFromIp (pySplitL line)).isSome then 1 else 0) := by
  constructor
  · intro lines
    exact sshScan_fold_len lines ([], []) rfl
  · intro line
    show (sshStep ([], []) line).1.length = _
    unfold sshStep
    by_cases hm : sshMarker line
    · cases hf : findFromIp (pySplitL line) with
      | none => simp [hm, hf]
      | some ip => simp [hm, hf]
    · simp [hm]

/-- Filter-by-count is preserved by one ordered insertion: the elements
skipped before the insertion point all have strictly larger counts. -/
theorem filter_count_orderedInsert (x : List Char × Nat)
    (l : List (List Char × Nat)) (c : Nat) :
    (List.orderedInsert countGe x l).filter (fun e => e.2 == c)
      = if x.2 = c then x :: l.filter (fun e => e.2 == c)
        else l.filter (fun e => e.2 == c) := by
  induction l with
  | nil =>
    by_cases h : x.2 = c <;> simp [List.orderedInsert, h]
  | cons y ys ih =>
    by_cases hxy : countGe x y
    · by_cases h : x.2 = c <;> simp [List.orderedInsert, hxy, h]
    · have hy2 : ¬ (y.2 ≤ x.2) := hxy
      by_cases h : x.2 = c
      · have hyc : (y.2 == c) = false := by
          simp only [beq_eq_false_iff_ne]
          omega
        simp [List.orderedInsert, hxy, hyc, ih, h]
      · simp [List.orderedInsert, List.filter_cons, hxy, ih, h]

/-- Stability of the code's sort: for every count value, the entries holding
that count appear in the sorted list in their original (insertion) order. -/
theorem filter_count_sortByCountDesc (l : List (List Char × Nat)) (c : Nat) :
    (sortByCountDesc l).filter (fun e => e.2 == c)
      = l.filter (fun e => e.2 == c) := by
  induction l with
  | nil => rfl
  | cons x xs ih =>
    show (List.orderedInsert countGe x (List.insertionSort countGe xs)).filter _ = _
    rw [filter_count_orderedInsert]
    by_cases h : x.2 = c
    · simpa [h] using congrArg (List.cons x) ih
    · simpa [h] using ih

/-- C6 counterexample: two IPs with equal counts, `10.0.0.2` first in the
log: the alert's top entries keep that insertion order, while the claimed
key-ascending tie-break would list `10.0.0.1` first — the two orders differ. -/
theorem C6_tie_break_counterexample :
    (check_ssh_failed_login [tieLineA, tieLineB] 1).map SshAlert.topIps
      = some [(("10.0.0.2".toList), 1), (("10.0.0.1".toList), 1)]
  ∧ sortSpecDesc [(("10.0.0.2".toList), 1), (("10.0.0.1".toList), 1)]
      = [(("10.0.0.1".toList), 1), (("10.0.0.2".toList), 1)]
  ∧ ([(("10.0.0.2".toList), 1), (("10.0.0.1".toList), 1)]
        : List (List Char × Nat))
      ≠ [(("10.0.0.1".toList), 1), (("10.0.0.2".toList), 1)] := by
  refine ⟨by decide, by decide, by decide⟩

/-- C6 (amended): the top entries are the per-group counts stably sorted by
count descending — a permutation of the groups, counts non-increasing, ties
kept in first-occurrence (insertion) order — truncated to the first 5; the
order is deterministic given the log's line order. -/
theorem C6_top_entries_order (l : List (List Char × Nat)) :
    (sortByCountDesc l).Perm l
  ∧ List.Sorted countGe (sortByCountDesc l)
  ∧ (∀ c : Nat, (sortByCountDesc l).filter (fun e => e.2 == c)
        = l.filter (fun e => e.2 == c))
  ∧ ((sortByCountDesc l).take 5).length ≤ 5 :=
  ⟨List.perm_insertionSort countGe l,
   List.sorted_insertionSort countGe l,
   fun c => filter_count_sortByCountDesc l c,
   List.length_take_le 5 (sortByCountDesc l)⟩

end TgBotAdmVpn
